import Mathlib

/-!
Verification of the StarRocks engine adapter
(`sqlmesh/core/engine_adapter/starrocks.py`) against its design
specification.  The Python module is shallowly embedded below: pure
helper functions become Lean functions, the SQLGlot expression nodes the
adapter constructs become a small inductive type, and the one raised
exception becomes an `Except` result.  Helpers that live in base classes
outside this module (`_drop_object`, `_truncate_table_comment`,
`_table_or_view_properties_to_expressions`, the base DCL statement
builder) are modelled from the specification and marked as such.
-/

/-! ## Python string semantics -/

/-- The ASCII apostrophe character, written via its code point. -/
def quoteChar : Char := Char.ofNat 39

/-- Python `str.upper()` restricted to its ASCII behaviour, which is all the
adapter relies on (table-format and privilege names). -/
def pyUpper (s : String) : String := String.mk (s.data.map Char.toUpper)

/-- Python `str.lower()` restricted to its ASCII behaviour (used for
`k.lower()` on property-map keys). -/
def pyLower (s : String) : String := String.mk (s.data.map Char.toLower)

/-- Python truthiness of an optional string: `None` and `""` are falsy.
`sqlmesh` passes optional string arguments whose absence and emptiness are
both treated as "not given" by `if x:` checks. -/
def pyStrOpt : Option String → Option String
  | some s => if s.data.isEmpty then none else some s
  | none => none

/-- Split a character list at every occurrence of `c`; the embedding of
Python `str.split(sep)` for a one-character separator.  The result is never
empty and splitting a separator-free list returns the list itself. -/
def splitOnCharList (c : Char) : List Char → List (List Char)
  | [] => [[]]
  | x :: xs =>
    let r := splitOnCharList c xs
    if x = c then [] :: r
    else
      match r with
      | [] => [[x]]
      | y :: ys => (x :: y) :: ys

/-- Remove the characters satisfying `p` from both ends of a list; the
embedding of Python `str.strip(chars)` for a one-predicate character set. -/
def stripList (p : Char → Bool) (l : List Char) : List Char :=
  ((l.dropWhile p).reverse.dropWhile p).reverse

/-- Python `s.split(sep)` for a one-character separator, on `String`. -/
def pySplit (sep : Char) (s : String) : List String :=
  (splitOnCharList sep s.data).map String.mk

/-- Python `s.strip("'")`: remove apostrophes from both ends. -/
def pyStripQuotes (s : String) : String :=
  String.mk (stripList (· == quoteChar) s.data)

/-- Python `s.strip()` on the ASCII whitespace the adapter encounters. -/
def pyTrim (s : String) : String :=
  String.mk (stripList Char.isWhitespace s.data)

/-- Python `sep in s` for a one-character `sep`. -/
def pyContains (s : String) (c : Char) : Bool := s.data.contains c

/-! ## SQLGlot expression values

A value-level rendering of the SQLGlot expression nodes the adapter
receives (column references, tuples/arrays of them, variables, literals,
and the generic this/expression pair used by rollup specifications).
`sqlglot.exp.Expression` defines no `__bool__`, so a present expression is
always truthy in the Python source; option-valued fields below model
presence, and `some e` is treated as truthy for every `e`. -/

inductive SqlExpr where
  | column (name : String)
  | var (name : String)
  | strLit (text : String)
  | num (n : Nat)
  | tuple (exprs : List SqlExpr)
  | array (exprs : List SqlExpr)
  | pair (this : SqlExpr) (expression : SqlExpr)
  | schemaNode (this : Option SqlExpr) (exprs : List SqlExpr)

/-- SQLGlot `expr.name`: the textual name of the node, as used by
`exp.to_column(c.name)` in the adapter. -/
def SqlExpr.nameOf : SqlExpr → String
  | .column n => n
  | .var n => n
  | .strLit t => t
  | _ => ""

/-- SQLGlot `expr.expressions`. -/
def SqlExpr.exprsOf : SqlExpr → List SqlExpr
  | .tuple es => es
  | .array es => es
  | .schemaNode _ es => es
  | _ => []

/-- SQLGlot `expr.this` for the nodes that carry one. -/
def SqlExpr.thisOf : SqlExpr → Option SqlExpr
  | .pair t _ => some t
  | .schemaNode t _ => t
  | _ => none

/-- SQLGlot `expr.expression` for the nodes that carry one. -/
def SqlExpr.expressionOf : SqlExpr → Option SqlExpr
  | .pair _ e => some e
  | _ => none

/-! ## Native property clauses

One constructor per SQLGlot property node the adapter emits.  Column
lists are kept as the column names handed to `exp.to_column`. -/

inductive Clause where
  | engineProp (engine : String)
  | primaryKey (columns : List String)
  | duplicateKey (columns : List String)
  | schemaComment (comment : String)
  | partitionedBy (columns : List SqlExpr)
  | distributedBy (kind : String) (columns : List String) (buckets : Option SqlExpr)
  | rollup (schemas : List SqlExpr)
  | order (columns : List String)
  | prop (key : String) (value : SqlExpr)

/-- The position each clause kind occupies in the compiled output. -/
def clauseRank : Clause → Nat
  | .engineProp _ => 0
  | .primaryKey _ => 1
  | .duplicateKey _ => 1
  | .schemaComment _ => 2
  | .partitionedBy _ => 3
  | .distributedBy _ _ _ => 4
  | .rollup _ => 5
  | .order _ => 6
  | .prop _ _ => 7

/-- Extract the key/value of a free-form property clause, `none` for every
dedicated clause kind. -/
def clausePropKV : Clause → Option (String × SqlExpr)
  | .prop k v => some (k, v)
  | _ => none

/-! ## Adapter constants and errors -/

/-- `VIEW_SUPPORTED_PRIVILEGES: frozenset({"SELECT"})`, modelled as a list. -/
def VIEW_SUPPORTED_PRIVILEGES : List String := ["SELECT"]

/-- `STARROCKS_SUPPORTED_TABLE_TYPES = frozenset(("PRIMARY", "DUPLICATE"))`,
modelled as a list in declaration order. -/
def STARROCKS_SUPPORTED_TABLE_TYPES : List String := ["PRIMARY", "DUPLICATE"]

/-- `MAX_TABLE_COMMENT_LENGTH = 1024`. -/
def MAX_TABLE_COMMENT_LENGTH : Nat := 1024

/-- The `SQLMeshError` raised by `_build_table_properties_exp`; the class is
a plain exception, so the printf-style format string and its arguments are
kept separate, exactly as they are passed at the raise site.  The design
specification files this raise under its ConfigurationError category. -/
inductive SQLMeshErr where
  | sqlmeshError (format : String) (args : List String)
deriving DecidableEq

/-- The format string at the raise site in `_build_table_properties_exp`. -/
def invalidTableTypeMsg : String :=
  "Invalid or unsupported table type: %s, supported types: %s"

/-- Python `", ".join(...)`. -/
def commaJoin (l : List String) : String := String.intercalate ", " l

/-! ## Python dict semantics for the property map -/

/-- Insert into an association list with Python dict semantics: an existing
key keeps its position and gets the new value, a new key is appended. -/
def pyDictInsert (d : List (String × SqlExpr)) (k : String) (v : SqlExpr) :
    List (String × SqlExpr) :=
  match d with
  | [] => [(k, v)]
  | (k₀, v₀) :: rest =>
    if k₀ = k then (k₀, v) :: rest else (k₀, v₀) :: pyDictInsert rest k v

/-- `{k.lower(): v for k, v in (table_properties or {}).items()}`. -/
def pyDictLower (tp : List (String × SqlExpr)) : List (String × SqlExpr) :=
  tp.foldl (fun d kv => pyDictInsert d (pyLower kv.1) kv.2) []

/-- `props.pop(k, None)`: the looked-up value and the map without `k`. -/
def pyPop (d : List (String × SqlExpr)) (k : String) :
    Option SqlExpr × List (String × SqlExpr) :=
  ((d.find? (fun kv => kv.1 == k)).map (·.2), d.filter (fun kv => kv.1 != k))

/-! ## The DDL property compiler (`starrocks.py` lines 178-318) -/

/-- `_build_engine_property` (line 236). -/
def build_engine_property (engine : String) : Clause := Clause.engineProp engine

/-- The key-column extraction inside `_build_table_type_property`
(lines 254-259): a tuple or array contributes one column per element,
any other expression contributes its own name. -/
def keyColumnsToCols (key_columns : Option SqlExpr) : List String :=
  match key_columns with
  | none => []
  | some kc =>
    match kc with
    | .tuple es => es.map SqlExpr.nameOf
    | .array es => es.map SqlExpr.nameOf
    | e => [e.nameOf]

/-- `_build_table_type_property` (lines 240-263): a `PrimaryKey` when the
given table type is truthy and upper-cases to `PRIMARY KEY`, otherwise a
`DuplicateKeyProperty`. -/
def build_table_type_property (table_type : Option String)
    (key_columns : Option SqlExpr) : Clause :=
  let cols := keyColumnsToCols key_columns
  match pyStrOpt table_type with
  | some s => if pyUpper s = "PRIMARY KEY" then .primaryKey cols else .duplicateKey cols
  | none => .duplicateKey cols

/-- Modelled from the spec: `_truncate_table_comment` lives in the base
adapter, outside this module; rule (3) of the property compiler says the
comment is "truncated to max_table_comment_length" silently. -/
def truncate_table_comment (s : String) : String :=
  String.mk (s.data.take MAX_TABLE_COMMENT_LENGTH)

/-- `_build_table_description_property` (lines 265-271). -/
def build_table_description_property (table_description : String) : Clause :=
  Clause.schemaComment (truncate_table_comment table_description)

/-- `_build_partitioned_by_exp` (lines 273-279). -/
def build_partitioned_by_exp (partitioned_by : List SqlExpr) : Clause :=
  Clause.partitionedBy partitioned_by

/-- `_build_distribution_property` (lines 281-299): no distribution
expression means RANDOM with the optional bucket count and no columns; a
present expression means HASH over its columns (a tuple contributes its
elements, anything else itself). -/
def build_distribution_property (distributed_by_expr : Option SqlExpr)
    (buckets_expr : Option SqlExpr) : Clause :=
  match distributed_by_expr with
  | none => .distributedBy "RANDOM" [] buckets_expr
  | some e =>
    let exprs := match e with
      | .tuple es => es
      | _ => [e]
    .distributedBy "HASH" (exprs.map SqlExpr.nameOf) buckets_expr

/-- `_build_rollup_property` (lines 301-308): one schema node per rollup
specification, pairing its `this` with its `expression.expressions`. -/
def build_rollup_property (rollup_expr : SqlExpr) : Clause :=
  Clause.rollup (rollup_expr.exprsOf.map (fun e =>
    SqlExpr.schemaNode e.thisOf ((e.expressionOf.getD (SqlExpr.tuple [])).exprsOf)))

/-- `_build_order_by_property` (lines 310-318). -/
def build_order_by_property (order_by_expr : SqlExpr) : Clause :=
  let exprs := match order_by_expr with
    | .tuple es => es
    | .array es => es
    | e => [e]
  Clause.order (exprs.map SqlExpr.nameOf)

/-- Modelled from the spec: `_table_or_view_properties_to_expressions` lives
in the base adapter, outside this module; rule (7) says the remaining
free-form properties are "rendered as generic key/value pairs, in map
iteration order". -/
def table_or_view_properties_to_expressions
    (props : List (String × SqlExpr)) : List Clause :=
  props.map (fun kv => Clause.prop kv.1 kv.2)

/-- The storage/engine clause step (lines 199-200): appended when
`storage_format` is truthy. -/
def engineSegment (storage_format : Option String) : List Clause :=
  match pyStrOpt storage_format with
  | some s => [build_engine_property s]
  | none => []

/-- The table-type step (lines 204-212): run when `table_format` or the
popped `key_columns` is truthy; an unsupported non-empty `table_format`
raises before anything is appended. -/
def keySegment (table_format : Option String) (key_columns_expr : Option SqlExpr) :
    Except SQLMeshErr (List Clause) :=
  if (pyStrOpt table_format).isSome || key_columns_expr.isSome then
    match pyStrOpt table_format with
    | some s =>
      if pyUpper s ∈ STARROCKS_SUPPORTED_TABLE_TYPES then
        .ok [build_table_type_property table_format key_columns_expr]
      else
        .error (.sqlmeshError invalidTableTypeMsg
          [s, commaJoin STARROCKS_SUPPORTED_TABLE_TYPES])
    | none => .ok [build_table_type_property table_format key_columns_expr]
  else .ok []

/-- The comment step (lines 214-215). -/
def commentSegment (table_description : Option String) : List Clause :=
  match pyStrOpt table_description with
  | some s => [build_table_description_property s]
  | none => []

/-- The partition step (lines 217-218): a `None` or empty list is falsy. -/
def partitionSegment (partitioned_by : Option (List SqlExpr)) : List Clause :=
  match partitioned_by with
  | some (c :: cs) => [build_partitioned_by_exp (c :: cs)]
  | _ => []

/-- The distribution step (lines 220-223): run when either popped
expression is present. -/
def distributionSegment (distributed_by_expr buckets_expr : Option SqlExpr) :
    List Clause :=
  if distributed_by_expr.isSome || buckets_expr.isSome then
    [build_distribution_property distributed_by_expr buckets_expr]
  else []

/-- The rollup step (lines 225-226). -/
def rollupSegment (rollup_expr : Option SqlExpr) : List Clause :=
  match rollup_expr with
  | some e => [build_rollup_property e]
  | none => []

/-- The order-by step (lines 228-229). -/
def orderSegment (order_by_expr : Option SqlExpr) : List Clause :=
  match order_by_expr with
  | some e => [build_order_by_property e]
  | none => []

/-- The body of `_build_table_properties_exp` (lines 194-232) up to the
final `Properties`-or-`None` choice: the property map is key-lowered, the
dedicated keys are popped in source order, and the clause list is the
source's appends in sequence.  Parameters the source never reads
(`catalog_name`, `partition_interval_unit`, `clustered_by`,
`target_columns_to_types`, `table_kind`) are omitted. -/
def buildClauses (table_format storage_format : Option String)
    (partitioned_by : Option (List SqlExpr))
    (table_properties : Option (List (String × SqlExpr)))
    (table_description : Option String) : Except SQLMeshErr (List Clause) :=
  let props := pyDictLower (table_properties.getD [])
  let keyPop := pyPop props "key_columns"
  let bucketsPop := pyPop keyPop.2 "buckets"
  let distPop := pyPop bucketsPop.2 "distributed_by"
  let rollupPop := pyPop distPop.2 "rollup"
  let orderPop := pyPop rollupPop.2 "order_by"
  match keySegment table_format keyPop.1 with
  | .error e => .error e
  | .ok keySeg =>
    .ok (engineSegment storage_format ++
      (keySeg ++
        (commentSegment table_description ++
          (partitionSegment partitioned_by ++
            (distributionSegment distPop.1 bucketsPop.1 ++
              (rollupSegment rollupPop.1 ++
                (orderSegment orderPop.1 ++
                  table_or_view_properties_to_expressions orderPop.2)))))))

/-- `_build_table_properties_exp` (lines 178-234): the clause list wrapped
as a `Properties` object when non-empty, the explicit `None` otherwise. -/
def build_table_properties_exp (table_format storage_format : Option String)
    (partitioned_by : Option (List SqlExpr))
    (table_properties : Option (List (String × SqlExpr)))
    (table_description : Option String) :
    Except SQLMeshErr (Option (List Clause)) :=
  match buildClauses table_format storage_format partitioned_by
      table_properties table_description with
  | .error e => .error e
  | .ok properties => .ok (if properties.isEmpty then none else some properties)

/-- The free-form properties left after the dedicated keys are popped, in
map iteration order; the characterization used to state rule (7). -/
def remainingFreeProps (table_properties : Option (List (String × SqlExpr))) :
    List (String × SqlExpr) :=
  let props := pyDictLower (table_properties.getD [])
  let props := (pyPop props "key_columns").2
  let props := (pyPop props "buckets").2
  let props := (pyPop props "distributed_by").2
  let props := (pyPop props "rollup").2
  (pyPop props "order_by").2

/-! ## Grants introspection (`starrocks.py` lines 334-388) -/

/-- The normalized current-grants mapping: privilege name to grantees, in
first-insertion order (a Python dict of lists). -/
abbrev GrantsConfig := List (String × List String)

/-- `grants_dict.setdefault(privilege, [])` followed by appending the
grantee when not already present. -/
def setdefaultAppend (d : GrantsConfig) (k v : String) : GrantsConfig :=
  match d with
  | [] => [(k, [v])]
  | (k₀, vs) :: rest =>
    if k₀ = k then
      if v ∈ vs then (k₀, vs) :: rest else (k₀, vs ++ [v]) :: rest
    else
      (k₀, vs) :: setdefaultAppend rest k v

/-- The body of the row loop in `_get_current_grants_config`
(lines 365-386): skip null or empty fields, drop the host part of a
`user@host` grantee and strip its quotes, split the privilege string on
commas, and record each trimmed non-empty privilege.  The Python `[0]`
index after `split` is total because `split` never returns an empty
list. -/
def processGrantRow (grants : GrantsConfig) (row : Option String × Option String) :
    GrantsConfig :=
  match row with
  | (some privilege_raw, some grantee_raw) =>
    if privilege_raw.data.isEmpty || grantee_raw.data.isEmpty then grants
    else
      let grantee :=
        if pyContains grantee_raw '@' then
          pyStripQuotes ((pySplit '@' grantee_raw).headD grantee_raw)
        else grantee_raw
      let privileges := (pySplit ',' privilege_raw).map pyTrim
      privileges.foldl
        (fun d p => if p.data.isEmpty then d else setdefaultAppend d p grantee)
        grants
  | _ => grants

/-- The normalization loop of `_get_current_grants_config` over the fetched
rows (lines 364-388). -/
def grantsFromRows (rows : List (Option String × Option String)) : GrantsConfig :=
  rows.foldl processGrantRow []

/-- `_get_current_grants_config` (lines 334-388) from the point the
introspection query has been executed: a failed fetch is caught, logged as
a warning and mapped to the empty configuration; a successful fetch is
normalized.  The second component is the warning log.  The return type
shows no failure is ever propagated. -/
def get_current_grants_config
    (fetched : Except String (List (Option String × Option String))) :
    GrantsConfig × List String :=
  match fetched with
  | .error e => ([], ["Failed to query grants from sys.grants_to_users: " ++ e])
  | .ok results => (grantsFromRows results, [])

/-! ## DCL statement construction (`starrocks.py` lines 320-325, 390-413) -/

/-- The object kinds the adapter distinguishes (`DataObjectType` values
used by this module; the enum itself lives outside `src`). -/
inductive DataObjectType where
  | table
  | view
deriving DecidableEq

/-- A table reference: optional catalog and database parts and a name. -/
structure Table where
  catalog : Option String
  db : Option String
  name : String
deriving DecidableEq

/-- GRANT or REVOKE. -/
inductive DclCmd where
  | grant
  | revoke
deriving DecidableEq

/-- One emitted GRANT/REVOKE statement. -/
structure DclStatement where
  cmd : DclCmd
  privilege : String
  grantees : List String
  table : Table
  objectType : DataObjectType
deriving DecidableEq

/-- `table.copy()`: in this pure embedding a copy is the value itself; the
point of the copy in the source is that the subsequent catalog removal
does not touch the caller's object, which the embedding reflects by
leaving the input value untouched. -/
def tableCopy (t : Table) : Table := t

/-- Modelled from the spec: the base-class `_dcl_grants_config_expr`
reached through `super()` lives outside this module; step (5) of the
grants synchronizer emits one statement per privilege with a non-empty
grantee set, preserving order. -/
def base_dcl_grants_config_expr (cmd : DclCmd) (table : Table)
    (config : GrantsConfig) (table_type : DataObjectType) : List DclStatement :=
  (config.filter (fun pg => !pg.2.isEmpty)).map
    (fun pg => ⟨cmd, pg.1, pg.2, table, table_type⟩)

/-- `_dcl_grants_config_expr` (lines 390-413): strip the catalog on a copy
of the table reference, filter the configuration to
`VIEW_SUPPORTED_PRIVILEGES` when the target is a view, and delegate to the
base builder. -/
def dcl_grants_config_expr (cmd : DclCmd) (table : Table)
    (grants_config : GrantsConfig) (table_type : DataObjectType) :
    List DclStatement :=
  let table_without_catalog := { tableCopy table with catalog := none }
  let grants_config :=
    if table_type = DataObjectType.view then
      grants_config.filter (fun pg => pyUpper pg.1 ∈ VIEW_SUPPORTED_PRIVILEGES)
    else grants_config
  base_dcl_grants_config_expr cmd table_without_catalog grants_config table_type

/-! ## Schema drop (`starrocks.py` lines 113-127) -/

/-- The drop statement handed to the executor. -/
structure DropStatement where
  kind : String
  name : String
  ifExists : Bool
  cascade : Bool
deriving DecidableEq

/-- Modelled from the spec: `_drop_object` lives in the base adapter,
outside this module; it renders a drop statement for the given object
kind, with an IF EXISTS guard and a cascade flag. -/
def drop_object (name : String) (existsFlag : Bool) (kind : String)
    (cascade : Bool) : DropStatement :=
  ⟨kind, name, existsFlag, cascade⟩

/-- `drop_schema` (lines 113-127): StarRocks has no CASCADE clause, so the
caller's cascade flag is discarded and `False` is passed down. -/
def drop_schema (schema_name : String) (ignore_if_not_exists : Bool)
    (cascade : Bool) : DropStatement :=
  drop_object schema_name ignore_if_not_exists "DATABASE" false

/-! ## Helper lemmas -/

/-- An all-empty property request compiles to the explicit empty result. -/
theorem buildClauses_empty (tf sf td : Option String) (pb : Option (List SqlExpr))
    (tp : Option (List (String × SqlExpr)))
    (h1 : pyStrOpt tf = none) (h2 : pyStrOpt sf = none) (h3 : pyStrOpt td = none)
    (h4 : pb.getD [] = []) (h5 : tp.getD [] = []) :
    buildClauses tf sf pb tp td = .ok [] := by
  have hprops : pyDictLower (tp.getD []) = [] := by rw [h5]; rfl
  have hpart : partitionSegment pb = [] := by
    cases pb with
    | none => rfl
    | some l =>
      cases l with
      | nil => rfl
      | cons c cs => simp at h4
  have hkey : keySegment tf none = .ok [] := by
    simp [keySegment, h1]
  simp [buildClauses, hprops, pyPop, hkey, hpart, engineSegment, commentSegment,
    h2, h3, table_or_view_properties_to_expressions, distributionSegment,
    rollupSegment, orderSegment]

/-- Wrapper step of the compiler: a `Properties` result is never empty. -/
theorem build_table_properties_some_ne_nil (tf sf td : Option String)
    (pb : Option (List SqlExpr)) (tp : Option (List (String × SqlExpr)))
    (cs : List Clause)
    (h : build_table_properties_exp tf sf pb tp td = .ok (some cs)) : cs ≠ [] := by
  unfold build_table_properties_exp at h
  cases hb : buildClauses tf sf pb tp td with
  | error e => rw [hb] at h; simp at h
  | ok l =>
    rw [hb] at h
    by_cases hl : l.isEmpty
    · simp [hl] at h
    · simp [hl] at h
      subst h
      intro hnil
      exact hl (by simp [hnil])

/-- An unsupported non-empty table format makes `keySegment` raise, with the
original value and the joined supported set as the exception arguments. -/
theorem keySegment_unsupported (s : String) (kc : Option SqlExpr)
    (hne : s.data.isEmpty = false)
    (hunsup : pyUpper s ∉ STARROCKS_SUPPORTED_TABLE_TYPES) :
    keySegment (some s) kc
      = .error (.sqlmeshError invalidTableTypeMsg
          [s, commaJoin STARROCKS_SUPPORTED_TABLE_TYPES]) := by
  simp [keySegment, pyStrOpt, hne, hunsup]

/-! ## Claims -/

/-- C1, counterexample: a distribution spec that asks for HASH with an empty
column list (an empty tuple under the `distributed_by` key) compiles
without any error, producing a HASH clause with no columns, where the claim
says a ConfigurationError is raised. -/
theorem claim1_counterexample :
    build_table_properties_exp none none none
        (some [("distributed_by", SqlExpr.tuple [])]) none
      = .ok (some [Clause.distributedBy "HASH" [] none]) := rfl

/-- C1, amended: a HASH distribution request with an empty column list
compiles without error to a HASH clause with an empty column list, and a
RANDOM request (no `distributed_by`) with a bucket count succeeds with the
bucket count and no column list. -/
theorem claim1_thm (b : SqlExpr) :
    build_table_properties_exp none none none
        (some [("distributed_by", SqlExpr.tuple [])]) none
      = .ok (some [Clause.distributedBy "HASH" [] none])
    ∧ build_table_properties_exp none none none (some [("buckets", b)]) none
      = .ok (some [Clause.distributedBy "RANDOM" [] (some b)]) :=
  ⟨rfl, rfl⟩

/-- C2, counterexample: the empty string upper-cases outside the supported
table-type set, yet compiling with it raises nothing: the empty string is
falsy in Python, so the whole table-type step is skipped. -/
theorem claim2_counterexample :
    build_table_properties_exp (some "") none none none none = .ok none := rfl

/-- C2, amended: for every non-empty table-format value whose upper-cased
form is not in the supported set, compilation fails with the adapter's
configuration error carrying the offending value and the joined supported
set, and no properties object is produced (the result is the error). -/
theorem claim2_thm (s : String) (sf td : Option String)
    (pb : Option (List SqlExpr)) (tp : Option (List (String × SqlExpr)))
    (hne : s.data.isEmpty = false)
    (hunsup : pyUpper s ∉ STARROCKS_SUPPORTED_TABLE_TYPES) :
    build_table_properties_exp (some s) sf pb tp td
      = .error (.sqlmeshError invalidTableTypeMsg
          [s, commaJoin STARROCKS_SUPPORTED_TABLE_TYPES]) := by
  have hk : ∀ kc : Option SqlExpr,
      keySegment (some s) kc
        = .error (.sqlmeshError invalidTableTypeMsg
            [s, commaJoin STARROCKS_SUPPORTED_TABLE_TYPES]) :=
    fun kc => keySegment_unsupported s kc hne hunsup
  simp [build_table_properties_exp, buildClauses, hk]

/-- C2, witness: the concrete unsupported value FOO is rejected with an
error naming PRIMARY and DUPLICATE. -/
theorem claim2_witness :
    build_table_properties_exp (some "FOO") none none none none
      = .error (.sqlmeshError invalidTableTypeMsg
          [ "FOO", commaJoin STARROCKS_SUPPORTED_TABLE_TYPES]) :=
  claim2_thm "FOO" none none none none rfl (by decide)

/-- C3: for every table-format value the compiler's validation accepts, the
key clause is a `PrimaryKey` exactly when the value upper-cases to the
string PRIMARY KEY, and a `DuplicateKeyProperty` otherwise; since no
accepted value upper-cases to PRIMARY KEY, every accepted value (including
PRIMARY) yields a `DuplicateKeyProperty`. -/
theorem claim3_thm (s : String) (kc : Option SqlExpr)
    (h : pyUpper s ∈ STARROCKS_SUPPORTED_TABLE_TYPES) :
    build_table_type_property (some s) kc
      = Clause.duplicateKey (keyColumnsToCols kc)
    ∧ ∀ t : Option String,
        (∃ cols, build_table_type_property t kc = Clause.primaryKey cols)
        ↔ ∃ u, pyStrOpt t = some u ∧ pyUpper u = "PRIMARY KEY" := by
  simp only [STARROCKS_SUPPORTED_TABLE_TYPES, List.mem_cons, List.mem_singleton,
    List.not_mem_nil, or_false] at h
  have hne : s.data.isEmpty = false := by
    cases hd : s.data.isEmpty
    · rfl
    · exfalso
      have hdata : s.data = [] := by simpa using hd
      rcases h with h | h <;> · rw [pyUpper, hdata] at h; exact absurd h (by decide)
  have hneq : ¬ pyUpper s = "PRIMARY KEY" := by
    rcases h with h | h <;> · rw [h]; decide
  constructor
  · simp [build_table_type_property, pyStrOpt, hne, hneq]
  · intro t
    constructor
    · rintro ⟨cols, hc⟩
      unfold build_table_type_property at hc
      cases ht : pyStrOpt t with
      | none => rw [ht] at hc; simp at hc
      | some u =>
        rw [ht] at hc
        by_cases hp : pyUpper u = "PRIMARY KEY"
        · exact ⟨u, rfl, hp⟩
        · simp [hp] at hc
    · rintro ⟨u, hu, hup⟩
      refine ⟨keyColumnsToCols kc, ?_⟩
      simp [build_table_type_property, hu, hup]

/-- C3, witness: the accepted value PRIMARY yields a duplicate-key clause,
not a primary-key clause. -/
theorem claim3_witness :
    build_table_type_property (some "PRIMARY") none = Clause.duplicateKey [] :=
  (claim3_thm "PRIMARY" none (by decide)).1

/-- C4: a property request in which every field is absent or empty compiles
to the explicit no-properties result `None`, and whenever compilation
returns a properties object its clause list is non-empty. -/
theorem claim4_thm :
    (∀ (tf sf td : Option String) (pb : Option (List SqlExpr))
        (tp : Option (List (String × SqlExpr))),
      pyStrOpt tf = none → pyStrOpt sf = none → pyStrOpt td = none →
      pb.getD [] = [] → tp.getD [] = [] →
      build_table_properties_exp tf sf pb tp td = .ok none)
    ∧ ∀ (tf sf td : Option String) (pb : Option (List SqlExpr))
        (tp : Option (List (String × SqlExpr))) (cs : List Clause),
      build_table_properties_exp tf sf pb tp td = .ok (some cs) → cs ≠ [] := by
  constructor
  · intro tf sf td pb tp h1 h2 h3 h4 h5
    rw [build_table_properties_exp, buildClauses_empty tf sf td pb tp h1 h2 h3 h4 h5]
    rfl
  · exact fun tf sf td pb tp cs h => build_table_properties_some_ne_nil tf sf td pb tp cs h

/-- C4, witness: the all-absent request yields `None`, and a request with
one free-form property yields a non-empty properties object. -/
theorem claim4_witness :
    build_table_properties_exp none none none none none = .ok none
    ∧ [Clause.order ["c1"]] ≠ [] :=
  ⟨claim4_thm.1 none none none none none rfl rfl rfl rfl rfl,
   claim4_thm.2 none none none none (some [("order_by", SqlExpr.column "c1")])
     [Clause.order ["c1"]] rfl⟩

/-- C6: every introspection-query failure is absorbed: the result is the
empty grants configuration together with one logged warning, and the total
return type of `get_current_grants_config` means no exception reaches the
caller. -/
theorem claim6_thm (e : String) :
    get_current_grants_config (.error e)
      = ([], ["Failed to query grants from sys.grants_to_users: " ++ e]) := rfl

/-- C9: `drop_schema` discards the cascade flag: both flag values produce
the same non-cascading DATABASE drop statement, and the call never fails. -/
theorem claim9_thm (schema_name : String) (ignore_if_not_exists cascade : Bool) :
    drop_schema schema_name ignore_if_not_exists cascade
      = drop_schema schema_name ignore_if_not_exists false
    ∧ (drop_schema schema_name ignore_if_not_exists cascade).cascade = false
    ∧ (drop_schema schema_name ignore_if_not_exists cascade).kind = "DATABASE" :=
  ⟨rfl, rfl, rfl⟩

/-- C7: for a view target every privilege kept in the emitted GRANT/REVOKE
statements upper-cases into `VIEW_SUPPORTED_PRIVILEGES`, i.e. every other
privilege is removed before any statement is built; for a table target the
emitted statements carry exactly the configured privileges with a
non-empty grantee set, unfiltered. -/
theorem claim7_thm (cmd : DclCmd) (table : Table) (config : GrantsConfig) :
    (∀ d ∈ dcl_grants_config_expr cmd table config DataObjectType.view,
        pyUpper d.privilege ∈ VIEW_SUPPORTED_PRIVILEGES)
    ∧ (dcl_grants_config_expr cmd table config DataObjectType.table).map
        (fun d => d.privilege)
      = (config.filter (fun pg => !pg.2.isEmpty)).map (fun pg => pg.1) := by
  constructor
  · intro d hd
    simp only [dcl_grants_config_expr, base_dcl_grants_config_expr, tableCopy,
      reduceIte, List.mem_map, List.mem_filter] at hd
    obtain ⟨pg, ⟨⟨hmem, hview⟩, _⟩, rfl⟩ := hd
    simpa using hview
  · simp only [dcl_grants_config_expr, base_dcl_grants_config_expr, tableCopy]
    rw [if_neg (by simp)]
    rw [List.map_map]
    rfl

/-- C7, witness: a SELECT grant survives the view filter, and a table
target emits exactly the configured privilege. -/
theorem claim7_witness :
    pyUpper (DclStatement.privilege
        ⟨DclCmd.grant, "SELECT", ["u1"], ⟨none, some "d", "t"⟩, DataObjectType.view⟩)
      ∈ VIEW_SUPPORTED_PRIVILEGES
    ∧ (dcl_grants_config_expr DclCmd.grant ⟨some "c", some "d", "t"⟩
          [("SELECT", ["u1"])] DataObjectType.table).map (fun d => d.privilege)
      = ["SELECT"] :=
  ⟨(claim7_thm DclCmd.grant ⟨some "c", some "d", "t"⟩ [("SELECT", ["u1"])]).1
      ⟨DclCmd.grant, "SELECT", ["u1"], ⟨none, some "d", "t"⟩, DataObjectType.view⟩
      (by decide),
   ((claim7_thm DclCmd.grant ⟨some "c", some "d", "t"⟩ [("SELECT", ["u1"])]).2).trans rfl⟩

/-- C10: every GRANT/REVOKE statement built by `dcl_grants_config_expr`
references the table with its catalog removed and its database and name
intact; the removal happens on a copy, so the caller's table value is the
unchanged input whose fields the statements still agree with. -/
theorem claim10_thm (cmd : DclCmd) (table : Table) (config : GrantsConfig)
    (table_type : DataObjectType) :
    ∀ d ∈ dcl_grants_config_expr cmd table config table_type,
      d.table.catalog = none ∧ d.table.db = table.db ∧ d.table.name = table.name := by
  intro d hd
  simp only [dcl_grants_config_expr, base_dcl_grants_config_expr, tableCopy,
    List.mem_map] at hd
  obtain ⟨pg, _, rfl⟩ := hd
  exact ⟨rfl, rfl, rfl⟩

/-- C10, witness: the emitted statement for a catalog-qualified table
references it catalog-free with database and name preserved. -/
theorem claim10_witness :
    (DclStatement.table
        ⟨DclCmd.grant, "SELECT", ["u1"], ⟨none, some "d", "t"⟩,
          DataObjectType.table⟩).catalog = none
    ∧ (DclStatement.table
        ⟨DclCmd.grant, "SELECT", ["u1"], ⟨none, some "d", "t"⟩,
          DataObjectType.table⟩).db = (Table.mk (some "c") (some "d") "t").db
    ∧ (DclStatement.table
        ⟨DclCmd.grant, "SELECT", ["u1"], ⟨none, some "d", "t"⟩,
          DataObjectType.table⟩).name = (Table.mk (some "c") (some "d") "t").name :=
  claim10_thm DclCmd.grant ⟨some "c", some "d", "t"⟩ [("SELECT", ["u1"])]
    DataObjectType.table
    ⟨DclCmd.grant, "SELECT", ["u1"], ⟨none, some "d", "t"⟩, DataObjectType.table⟩
    (by decide)

/-- The table-type builder always produces a key clause (rank 1). -/
theorem clauseRank_build_table_type (a : Option String) (b : Option SqlExpr) :
    clauseRank (build_table_type_property a b) = 1 := by
  unfold build_table_type_property
  cases hps : pyStrOpt a
  · rfl
  · dsimp only
    split <;> rfl

/-- The distribution builder always produces a distribution clause (rank 4). -/
theorem clauseRank_build_distribution (d b : Option SqlExpr) :
    clauseRank (build_distribution_property d b) = 4 := by
  cases d <;> rfl

/-- Every clause of the storage/engine step has rank 0. -/
theorem rank_engineSegment (sf : Option String) :
    ∀ c ∈ engineSegment sf, clauseRank c = 0 := by
  intro c hc
  unfold engineSegment at hc
  split at hc
  · simp at hc
    subst hc
    rfl
  · simp at hc

/-- Every clause of a successful table-type step has rank 1. -/
theorem rank_keySegment (tf : Option String) (kc : Option SqlExpr) (l : List Clause)
    (h : keySegment tf kc = .ok l) : ∀ c ∈ l, clauseRank c = 1 := by
  intro c hc
  unfold keySegment at h
  split at h
  · split at h
    · split at h
      · simp at h
        subst h
        simp at hc
        subst hc
        exact clauseRank_build_table_type tf kc
      · simp at h
    · simp at h
      subst h
      simp at hc
      subst hc
      exact clauseRank_build_table_type tf kc
  · simp at h
    subst h
    simp at hc

/-- Every clause of the comment step has rank 2. -/
theorem rank_commentSegment (td : Option String) :
    ∀ c ∈ commentSegment td, clauseRank c = 2 := by
  intro c hc
  unfold commentSegment at hc
  split at hc
  · simp at hc
    subst hc
    rfl
  · simp at hc

/-- Every clause of the partition step has rank 3. -/
theorem rank_partitionSegment (pb : Option (List SqlExpr)) :
    ∀ c ∈ partitionSegment pb, clauseRank c = 3 := by
  intro c hc
  unfold partitionSegment at hc
  split at hc
  · simp at hc
    subst hc
    rfl
  · simp at hc

/-- Every clause of the distribution step has rank 4. -/
theorem rank_distributionSegment (d b : Option SqlExpr) :
    ∀ c ∈ distributionSegment d b, clauseRank c = 4 := by
  intro c hc
  unfold distributionSegment at hc
  split at hc
  · simp at hc
    subst hc
    exact clauseRank_build_distribution d b
  · simp at hc

/-- Every clause of the rollup step has rank 5. -/
theorem rank_rollupSegment (r : Option SqlExpr) :
    ∀ c ∈ rollupSegment r, clauseRank c = 5 := by
  intro c hc
  unfold rollupSegment at hc
  split at hc
  · simp at hc
    subst hc
    rfl
  · simp at hc

/-- Every clause of the order-by step has rank 6. -/
theorem rank_orderSegment (o : Option SqlExpr) :
    ∀ c ∈ orderSegment o, clauseRank c = 6 := by
  intro c hc
  unfold orderSegment at hc
  split at hc
  · simp at hc
    subst hc
    rfl
  · simp at hc

/-- Every clause of the free-form property step has rank 7. -/
theorem rank_propsSegment (props : List (String × SqlExpr)) :
    ∀ c ∈ table_or_view_properties_to_expressions props, clauseRank c = 7 := by
  intro c hc
  simp only [table_or_view_properties_to_expressions, List.mem_map] at hc
  obtain ⟨kv, _, rfl⟩ := hc
  rfl

/-- Gluing a constant-rank segment onto a rank-sorted tail of no smaller
rank keeps the list rank-sorted and bounded below by that rank. -/
theorem pairwise_rank_glue (xs ys : List Clause) (r : Nat)
    (hx : ∀ c ∈ xs, clauseRank c = r)
    (hy : ∀ c ∈ ys, r ≤ clauseRank c)
    (hp : ys.Pairwise (fun a b => clauseRank a ≤ clauseRank b)) :
    ((xs ++ ys).Pairwise (fun a b => clauseRank a ≤ clauseRank b))
    ∧ ∀ c ∈ xs ++ ys, r ≤ clauseRank c := by
  constructor
  · rw [List.pairwise_append]
    refine ⟨List.pairwise_of_forall_mem_list (fun a ha b hb => ?_), hp,
      fun a ha b hb => ?_⟩
    · rw [hx a ha, hx b hb]
    · rw [hx a ha]
      exact hy b hb
  · intro c hc
    rcases List.mem_append.mp hc with h | h
    · rw [hx c h]
    · exact hy c h

/-- Clauses of rank other than 7 are not free-form property clauses. -/
theorem filterMap_propKV_eq_nil (l : List Clause) (r : Nat) (hr : r ≠ 7)
    (h : ∀ c ∈ l, clauseRank c = r) : l.filterMap clausePropKV = [] := by
  rw [List.filterMap_eq_nil_iff]
  intro a ha
  have hrank := h a ha
  cases a <;> simp_all [clauseRank, clausePropKV]

/-- The free-form property step round-trips its key/value pairs. -/
theorem filterMap_propKV_props (props : List (String × SqlExpr)) :
    (table_or_view_properties_to_expressions props).filterMap clausePropKV = props := by
  induction props with
  | nil => rfl
  | cons kv rest ih =>
    simp only [table_or_view_properties_to_expressions, List.map_cons,
      List.filterMap_cons, clausePropKV] at *
    rw [ih]

/-- The assembled clause list of `buildClauses` is rank-sorted and its
free-form tail is exactly the leftover property map. -/
theorem buildClauses_shape (sf td : Option String) (pb : Option (List SqlExpr))
    (ks : List Clause) (h1 : ∀ c ∈ ks, clauseRank c = 1)
    (d b r o : Option SqlExpr) (rest : List (String × SqlExpr)) :
    ((engineSegment sf ++
        (ks ++
          (commentSegment td ++
            (partitionSegment pb ++
              (distributionSegment d b ++
                (rollupSegment r ++
                  (orderSegment o ++
                    table_or_view_properties_to_expressions rest))))))).Pairwise
        (fun a b => clauseRank a ≤ clauseRank b))
    ∧ (engineSegment sf ++
        (ks ++
          (commentSegment td ++
            (partitionSegment pb ++
              (distributionSegment d b ++
                (rollupSegment r ++
                  (orderSegment o ++
                    table_or_view_properties_to_expressions rest))))))).filterMap
        clausePropKV = rest := by
  have p7 : (table_or_view_properties_to_expressions rest).Pairwise
      (fun a b => clauseRank a ≤ clauseRank b) :=
    List.pairwise_of_forall_mem_list (fun a ha b hb => by
      rw [rank_propsSegment rest a ha, rank_propsSegment rest b hb])
  have g6 := pairwise_rank_glue (orderSegment o)
    (table_or_view_properties_to_expressions rest) 6 (rank_orderSegment o)
    (fun c hc => by rw [rank_propsSegment rest c hc]; omega) p7
  have g5 := pairwise_rank_glue (rollupSegment r) _ 5 (rank_rollupSegment r)
    (fun c hc => Nat.le_trans (by omega) (g6.2 c hc)) g6.1
  have g4 := pairwise_rank_glue (distributionSegment d b) _ 4
    (rank_distributionSegment d b)
    (fun c hc => Nat.le_trans (by omega) (g5.2 c hc)) g5.1
  have g3 := pairwise_rank_glue (partitionSegment pb) _ 3 (rank_partitionSegment pb)
    (fun c hc => Nat.le_trans (by omega) (g4.2 c hc)) g4.1
  have g2 := pairwise_rank_glue (commentSegment td) _ 2 (rank_commentSegment td)
    (fun c hc => Nat.le_trans (by omega) (g3.2 c hc)) g3.1
  have g1 := pairwise_rank_glue ks _ 1 h1
    (fun c hc => Nat.le_trans (by omega) (g2.2 c hc)) g2.1
  have g0 := pairwise_rank_glue (engineSegment sf) _ 0 (rank_engineSegment sf)
    (fun c hc => Nat.le_trans (by omega) (g1.2 c hc)) g1.1
  refine ⟨g0.1, ?_⟩
  have e0 := filterMap_propKV_eq_nil _ 0 (by omega) (rank_engineSegment sf)
  have e1 := filterMap_propKV_eq_nil _ 1 (by omega) h1
  have e2 := filterMap_propKV_eq_nil _ 2 (by omega) (rank_commentSegment td)
  have e3 := filterMap_propKV_eq_nil _ 3 (by omega) (rank_partitionSegment pb)
  have e4 := filterMap_propKV_eq_nil _ 4 (by omega) (rank_distributionSegment d b)
  have e5 := filterMap_propKV_eq_nil _ 5 (by omega) (rank_rollupSegment r)
  have e6 := filterMap_propKV_eq_nil _ 6 (by omega) (rank_orderSegment o)
  simp only [List.filterMap_append, e0, e1, e2, e3, e4, e5, e6,
    filterMap_propKV_props, List.nil_append]

/-- C8: every successful compilation emits its clauses in the fixed
relative order storage/engine, key, comment, partition, distribution,
rollup, ordering, free-form properties (ranks 0..7 are non-decreasing
along the output), and the free-form tail is exactly the remaining
property map in iteration order. -/
theorem claim8_thm (tf sf td : Option String) (pb : Option (List SqlExpr))
    (tp : Option (List (String × SqlExpr))) (cs : List Clause)
    (h : build_table_properties_exp tf sf pb tp td = .ok (some cs)) :
    cs.Pairwise (fun a b => clauseRank a ≤ clauseRank b)
    ∧ cs.filterMap clausePropKV = remainingFreeProps tp := by
  unfold build_table_properties_exp at h
  cases hb : buildClauses tf sf pb tp td with
  | error e => rw [hb] at h; simp at h
  | ok l =>
    rw [hb] at h
    by_cases hl : l.isEmpty
    · simp [hl] at h
    · simp [hl] at h
      subst h
      simp only [buildClauses] at hb
      cases hk : keySegment tf (pyPop (pyDictLower (tp.getD [])) "key_columns").1 with
      | error e => rw [hk] at hb; simp at hb
      | ok ks =>
        rw [hk] at hb
        simp only [Except.ok.injEq] at hb
        subst hb
        have h1 := rank_keySegment tf _ ks hk
        exact buildClauses_shape sf td pb ks h1 _ _ _ _ _

/-- C8, witness: a request exercising every clause kind compiles to a
rank-sorted clause list whose free-form tail is the leftover map. -/
theorem claim8_witness :
    ([Clause.engineProp "OLAP", Clause.duplicateKey [],
        Clause.schemaComment "desc", Clause.partitionedBy [SqlExpr.column "ds"],
        Clause.distributedBy "HASH" ["id"] (some (SqlExpr.num 16)),
        Clause.rollup [], Clause.order ["a"],
        Clause.prop "foo" (SqlExpr.num 1)].Pairwise
      (fun a b => clauseRank a ≤ clauseRank b))
    ∧ ([Clause.engineProp "OLAP", Clause.duplicateKey [],
        Clause.schemaComment "desc", Clause.partitionedBy [SqlExpr.column "ds"],
        Clause.distributedBy "HASH" ["id"] (some (SqlExpr.num 16)),
        Clause.rollup [], Clause.order ["a"],
        Clause.prop "foo" (SqlExpr.num 1)].filterMap clausePropKV)
      = remainingFreeProps (some [("order_by", SqlExpr.tuple [SqlExpr.column "a"]),
          ("foo", SqlExpr.num 1), ("rollup", SqlExpr.tuple []),
          ("Distributed_By", SqlExpr.tuple [SqlExpr.column "id"]),
          ("buckets", SqlExpr.num 16)]) :=
  claim8_thm (some "PRIMARY") (some "OLAP") (some "desc")
    (some [SqlExpr.column "ds"])
    (some [("order_by", SqlExpr.tuple [SqlExpr.column "a"]),
      ("foo", SqlExpr.num 1), ("rollup", SqlExpr.tuple []),
      ("Distributed_By", SqlExpr.tuple [SqlExpr.column "id"]),
      ("buckets", SqlExpr.num 16)])
    [Clause.engineProp "OLAP", Clause.duplicateKey [],
      Clause.schemaComment "desc", Clause.partitionedBy [SqlExpr.column "ds"],
      Clause.distributedBy "HASH" ["id"] (some (SqlExpr.num 16)),
      Clause.rollup [], Clause.order ["a"],
      Clause.prop "foo" (SqlExpr.num 1)] rfl

/-- Packing equal character lists gives equal strings and conversely. -/
theorem string_mk_inj (s t : List Char) : String.mk s = String.mk t ↔ s = t := by
  rw [String.ext_iff]

/-- Splitting a separator-free list returns the list itself. -/
theorem splitOnCharList_not_mem (c : Char) (l : List Char) (h : c ∉ l) :
    splitOnCharList c l = [l] := by
  induction l with
  | nil => rfl
  | cons x xs ih =>
    simp only [List.mem_cons, not_or] at h
    obtain ⟨h1, h2⟩ := h
    simp only [splitOnCharList]
    rw [if_neg (fun he => h1 he.symm), ih h2]

/-- Splitting around the first separator occurrence peels off the
separator-free head chunk. -/
theorem splitOnCharList_append (c : Char) (a b : List Char) (h : c ∉ a) :
    splitOnCharList c (a ++ c :: b) = a :: splitOnCharList c b := by
  induction a with
  | nil =>
    simp only [List.nil_append, splitOnCharList]
    simp
  | cons x a ih =>
    simp only [List.mem_cons, not_or] at h
    obtain ⟨h1, h2⟩ := h
    simp only [List.cons_append, splitOnCharList, List.append_eq]
    rw [if_neg (fun he => h1 he.symm), ih h2]

/-- Stripping a character from both ends of a singly-wrapped list recovers
the wrapped list when its own ends do not carry that character. -/
theorem stripList_wrap (w : Char) (u : List Char) (hne : u ≠ [])
    (h1 : u.head? ≠ some w) (h2 : u.getLast? ≠ some w) :
    stripList (· == w) (w :: u ++ [w]) = u := by
  obtain ⟨x, xs, rfl⟩ := List.exists_cons_of_ne_nil hne
  have hx : (x == w) = false := by
    simp only [List.head?_cons, ne_eq, Option.some.injEq] at h1
    simp [h1]
  obtain ⟨y, ys, hrev⟩ : ∃ y ys, (x :: xs).reverse = y :: ys := by
    cases hr : (x :: xs).reverse with
    | nil => exact absurd (List.reverse_eq_nil_iff.mp hr) (by simp)
    | cons y ys => exact ⟨y, ys, rfl⟩
  have hy : (y == w) = false := by
    have hgl : (x :: xs).getLast? = some y := by
      rw [← List.head?_reverse, hrev, List.head?_cons]
    rw [hgl] at h2
    simp only [ne_eq, Option.some.injEq] at h2
    simp [h2]
  have d1 : List.dropWhile (· == w) (w :: (x :: (xs ++ [w]))) = x :: (xs ++ [w]) := by
    simp [List.dropWhile_cons, hx]
  have d2 : List.dropWhile (· == w) (w :: (x :: xs).reverse) = (x :: xs).reverse := by
    rw [hrev]
    simp [List.dropWhile_cons, hy]
  unfold stripList
  rw [show w :: (x :: xs) ++ [w] = w :: (x :: (xs ++ [w])) by simp, d1]
  rw [show (x :: (xs ++ [w])).reverse = w :: (x :: xs).reverse by simp, d2,
    List.reverse_reverse]

/-- C5: a row whose grantee has the engine form user-at-host (each part
wrapped in apostrophes) and whose privilege field is a comma-separated
pair normalizes to the bare username recorded under each individual
trimmed privilege. -/
theorem claim5_thm (u hst p q : List Char)
    (hu_at : '@' ∉ u) (hu_ne : u ≠ [])
    (hu_h : u.head? ≠ some quoteChar) (hu_l : u.getLast? ≠ some quoteChar)
    (hp_c : ',' ∉ p) (hq_c : ',' ∉ q)
    (hp_ne : stripList Char.isWhitespace p ≠ [])
    (hq_ne : stripList Char.isWhitespace q ≠ [])
    (hpq : stripList Char.isWhitespace p ≠ stripList Char.isWhitespace q) :
    grantsFromRows [(some (String.mk (p ++ ',' :: q)),
        some (String.mk (quoteChar :: u ++ quoteChar :: '@' :: quoteChar :: hst
          ++ [quoteChar])))]
      = [(String.mk (stripList Char.isWhitespace p), [String.mk u]),
         (String.mk (stripList Char.isWhitespace q), [String.mk u])] := by
  have hat_not : '@' ∉ quoteChar :: u ++ [quoteChar] := by
    intro hmem
    rcases List.mem_cons.mp hmem with h | hmem2
    · exact absurd h (by decide)
    rcases List.mem_append.mp hmem2 with h | h
    · exact hu_at h
    · exact absurd (List.mem_singleton.mp h) (by decide)
  have hgdata : (quoteChar :: u ++ quoteChar :: '@' :: quoteChar :: hst ++ [quoteChar])
      = (quoteChar :: u ++ [quoteChar]) ++ '@' :: (quoteChar :: hst ++ [quoteChar]) := by
    simp
  have hsplitg : pySplit '@'
      (String.mk (quoteChar :: u ++ quoteChar :: '@' :: quoteChar :: hst ++ [quoteChar]))
      = String.mk (quoteChar :: u ++ [quoteChar])
        :: (splitOnCharList '@' (quoteChar :: hst ++ [quoteChar])).map String.mk := by
    unfold pySplit
    rw [show (String.mk (quoteChar :: u ++ quoteChar :: '@' :: quoteChar :: hst
        ++ [quoteChar])).data
      = quoteChar :: u ++ quoteChar :: '@' :: quoteChar :: hst ++ [quoteChar] from rfl]
    rw [hgdata, splitOnCharList_append '@' _ _ hat_not]
    rfl
  have hcont : pyContains
      (String.mk (quoteChar :: u ++ quoteChar :: '@' :: quoteChar :: hst ++ [quoteChar]))
      '@' = true := by
    simp [pyContains, List.elem_iff, List.mem_append]
  have hstrip : pyStripQuotes (String.mk (quoteChar :: u ++ [quoteChar]))
      = String.mk u := by
    unfold pyStripQuotes
    rw [string_mk_inj]
    exact stripList_wrap quoteChar u hu_ne hu_h hu_l
  have hsplitp : pySplit ',' (String.mk (p ++ ',' :: q))
      = [String.mk p, String.mk q] := by
    unfold pySplit
    rw [show (String.mk (p ++ ',' :: q)).data = p ++ ',' :: q from rfl,
      splitOnCharList_append ',' p q hp_c, splitOnCharList_not_mem ',' q hq_c]
    rfl
  have hpE : (stripList Char.isWhitespace p).isEmpty = false := by
    cases hh : (stripList Char.isWhitespace p).isEmpty
    · rfl
    · exact absurd (List.isEmpty_iff.mp hh) hp_ne
  have hqE : (stripList Char.isWhitespace q).isEmpty = false := by
    cases hh : (stripList Char.isWhitespace q).isEmpty
    · rfl
    · exact absurd (List.isEmpty_iff.mp hh) hq_ne
  have hprivE : (p ++ ',' :: q).isEmpty = false := by
    cases p <;> rfl
  have hgranE : (quoteChar :: u ++ quoteChar :: '@' :: quoteChar :: hst
      ++ [quoteChar]).isEmpty = false := rfl
  unfold grantsFromRows
  simp only [List.foldl_cons, List.foldl_nil]
  unfold processGrantRow
  simp only [hprivE, hgranE, Bool.or_self, Bool.false_eq_true, if_false,
    hcont, if_true, hsplitg, List.headD_cons, hstrip, hsplitp, List.map_cons,
    List.map_nil, List.foldl_cons, List.foldl_nil]
  simp only [show pyTrim (String.mk p) = String.mk (stripList Char.isWhitespace p)
      from rfl,
    show pyTrim (String.mk q) = String.mk (stripList Char.isWhitespace q) from rfl]
  simp only [show (String.mk (stripList Char.isWhitespace p)).data
      = stripList Char.isWhitespace p from rfl,
    show (String.mk (stripList Char.isWhitespace q)).data
      = stripList Char.isWhitespace q from rfl, hpE, hqE,
    Bool.false_eq_true, if_false]
  simp only [setdefaultAppend]
  rw [if_neg (fun he => hpq ((string_mk_inj _ _).mp he))]

/-- C5, witness: grantee alice at any-host with privileges INSERT, SELECT
normalizes to grantee alice under INSERT and under SELECT. -/
theorem claim5_witness :
    grantsFromRows [(some "INSERT, SELECT",
        some (String.mk (quoteChar :: "alice".data
          ++ quoteChar :: '@' :: quoteChar :: "%".data ++ [quoteChar])))]
      = [("INSERT", ["alice"]), ("SELECT", ["alice"])] :=
  claim5_thm "alice".data "%".data "INSERT".data " SELECT".data
    (by decide) (by decide) (by decide) (by decide) (by decide) (by decide)
    (by decide) (by decide) (by decide)
